import Mathlib

set_option maxRecDepth 100000

/-!
Verification development for the msix-node build tool (`src/cli.js`).

The tool is modelled as pure Lean functions over an explicit environment
(`Env`, holding the process inputs and the outcomes of external
subprocesses) and an explicit file system (`FS`, an association list from
path to byte content).  Every pipeline step additionally records the
ordered list of side effects it performs (`Ev`), so that frame conditions
("no write happened on this path") and orchestration properties
("registrar runs iff the blob changed") can be stated directly.

File contents are byte lists (`List Nat`, each entry a byte value); the
checksum used by the tool (`crypto.createHash('md5')` piped to hex) is
modelled by a full executable MD5 implementation over byte lists,
finished as a lowercase hexadecimal string, mirroring Node's
`Buffer.toString('hex')`.
-/

/-! ### MD5 (the digest used by `readFileChecksum`) -/

/-- The modulus `2 ^ 32` for all MD5 word arithmetic. -/
def m32 : Nat := 4294967296

/-- Addition modulo `2 ^ 32`. -/
def add32 (a b : Nat) : Nat := (a + b) % m32

/-- Bitwise complement on 32-bit words. -/
def not32 (a : Nat) : Nat := Nat.xor a 4294967295

/-- Left rotation of a 32-bit word by `n` bits. -/
def rotl32 (x n : Nat) : Nat := (Nat.lor (x <<< n) (x >>> (32 - n))) % m32

/-- MD5 round function F. -/
def mdF (b c d : Nat) : Nat := Nat.lor (Nat.land b c) (Nat.land (not32 b) d)

/-- MD5 round function G. -/
def mdG (b c d : Nat) : Nat := Nat.lor (Nat.land d b) (Nat.land (not32 d) c)

/-- MD5 round function H. -/
def mdH (b c d : Nat) : Nat := Nat.xor b (Nat.xor c d)

/-- MD5 round function I. -/
def mdI (b c d : Nat) : Nat := Nat.xor c (Nat.lor b (not32 d))

/-- The 64 MD5 sine-derived constants. -/
def kTable : List Nat :=
  [3614090360, 3905402710, 606105819, 3250441966, 4118548399, 1200080426, 2821735955, 4249261313,
   1770035416, 2336552879, 4294925233, 2304563134, 1804603682, 4254626195, 2792965006, 1236535329,
   4129170786, 3225465664, 643717713, 3921069994, 3593408605, 38016083, 3634488961, 3889429448,
   568446438, 3275163606, 4107603335, 1163531501, 2850285829, 4243563512, 1735328473, 2368359562,
   4294588738, 2272392833, 1839030562, 4259657740, 2763975236, 1272893353, 4139469664, 3200236656,
   681279174, 3936430074, 3572445317, 76029189, 3654602809, 3873151461, 530742520, 3299628645,
   4096336452, 1126891415, 2878612391, 4237533241, 1700485571, 2399980690, 4293915773, 2240044497,
   1873313359, 4264355552, 2734768916, 1309151649, 4149444226, 3174756917, 718787259, 3951481745]

/-- The 64 MD5 per-round left-rotation amounts. -/
def sTable : List Nat :=
  [7, 12, 17, 22, 7, 12, 17, 22, 7, 12, 17, 22, 7, 12, 17, 22,
   5, 9, 14, 20, 5, 9, 14, 20, 5, 9, 14, 20, 5, 9, 14, 20,
   4, 11, 16, 23, 4, 11, 16, 23, 4, 11, 16, 23, 4, 11, 16, 23,
   6, 10, 15, 21, 6, 10, 15, 21, 6, 10, 15, 21, 6, 10, 15, 21]

/-- The `n` low-order bytes of `x` in little-endian order. -/
def leBytes : Nat → Nat → List Nat
  | 0, _ => []
  | n + 1, x => (x % 256) :: leBytes n (x / 256)

/-- The `j`-th little-endian 32-bit word of a 64-byte block. -/
def leWord (block : List Nat) (j : Nat) : Nat :=
  block.getD (4 * j) 0 + 256 * block.getD (4 * j + 1) 0 +
    65536 * block.getD (4 * j + 2) 0 + 16777216 * block.getD (4 * j + 3) 0

/-- One MD5 round (round index `i`, message block `block`). -/
def md5round (block : List Nat) (st : Nat × Nat × Nat × Nat) (i : Nat) :
    Nat × Nat × Nat × Nat :=
  let (a, b, c, d) := st
  let f := if i < 16 then mdF b c d
           else if i < 32 then mdG b c d
           else if i < 48 then mdH b c d
           else mdI b c d
  let g := if i < 16 then i
           else if i < 32 then (5 * i + 1) % 16
           else if i < 48 then (3 * i + 5) % 16
           else (7 * i) % 16
  let x := add32 (add32 a f) (add32 (kTable.getD i 0) (leWord block g))
  (d, add32 b (rotl32 x (sTable.getD i 0)), b, c)

/-- Process one 64-byte block, updating the running MD5 state. -/
def md5block (st : Nat × Nat × Nat × Nat) (block : List Nat) :
    Nat × Nat × Nat × Nat :=
  let r := (List.range 64).foldl (md5round block) st
  (add32 st.1 r.1, add32 st.2.1 r.2.1, add32 st.2.2.1 r.2.2.1, add32 st.2.2.2 r.2.2.2)

/-- MD5 padding: a `0x80` byte, zeros to 56 mod 64, then the 64-bit
little-endian bit length. -/
def md5pad (msg : List Nat) : List Nat :=
  let l := msg.length
  let zeros := (64 + 56 - ((l + 1) % 64)) % 64
  msg ++ [128] ++ List.replicate zeros 0 ++ leBytes 8 ((l * 8) % 18446744073709551616)

/-- Split a byte list into consecutive 64-byte chunks (fuel-driven
structural recursion: each step consumes at least one byte, so the list's
length is enough fuel). -/
def chunksAux : Nat → List Nat → List (List Nat)
  | 0, _ => []
  | _, [] => []
  | n + 1, a :: t => ((a :: t).take 64) :: chunksAux n ((a :: t).drop 64)

/-- Split a byte list into consecutive 64-byte chunks. -/
def chunks64 (l : List Nat) : List (List Nat) := chunksAux l.length l

/-- Serialize the final MD5 state as 16 bytes (each word little-endian). -/
def md5final (st : Nat × Nat × Nat × Nat) : List Nat :=
  leBytes 4 st.1 ++ leBytes 4 st.2.1 ++ leBytes 4 st.2.2.1 ++ leBytes 4 st.2.2.2

/-- MD5 digest (16 bytes) of a byte list. -/
def md5bytes (msg : List Nat) : List Nat :=
  md5final ((chunks64 (md5pad msg)).foldl md5block
    (1732584193, 4023233417, 2562383102, 271733878))

/-- Lowercase hexadecimal digit characters, as produced by Node's
`Buffer.toString('hex')`. -/
def hexDigitChar (n : Nat) : Char :=
  match n with
  | 0 => '0' | 1 => '1' | 2 => '2' | 3 => '3' | 4 => '4' | 5 => '5' | 6 => '6' | 7 => '7'
  | 8 => '8' | 9 => '9' | 10 => 'a' | 11 => 'b' | 12 => 'c' | 13 => 'd' | 14 => 'e' | _ => 'f'

/-- Two lowercase hex characters for one byte. -/
def byteHex (b : Nat) : List Char := [hexDigitChar (b / 16 % 16), hexDigitChar (b % 16)]

/-- Hex characters of a byte list, two per byte. -/
def hexChars : List Nat → List Char
  | [] => []
  | b :: t => byteHex b ++ hexChars t

/-- Lowercase hex string of a byte list. -/
def hexOfBytes (bs : List Nat) : String := String.mk (hexChars bs)

/-- Model of `readFileChecksum` from `src/cli.js`: streams the file content through
an MD5 hash and returns the digest as a lowercase hex string.  Modelled as
a pure function of the file's bytes. -/
def readFileChecksum (content : List Nat) : String := hexOfBytes (md5bytes content)

/-! ### File system, effects, environment -/

/-- A file system: association list from absolute path to byte content. -/
abbrev FS := List (String × List Nat)

/-- Look up the content of a file. -/
def lookupFS (fs : FS) (p : String) : Option (List Nat) :=
  match fs with
  | [] => none
  | (q, c) :: rest => if q = p then some c else lookupFS rest p

/-- Write (create or overwrite) a file. -/
def insertFS (fs : FS) (p : String) (c : List Nat) : FS := (p, c) :: fs

/-- Observable side effects of the pipeline, in the order they occur. -/
inductive Ev where
  | mkdirEv (p : String)
  | writeEv (p : String)
  | copyEv (dst : String)
  | execCompilerEv
  | execPostjectEv
  | execRegisterEv
  | spawnEv (cmd : String)
  deriving DecidableEq

/-- Inputs of one run: process facts plus the outcomes of the external
subprocesses (`node --experimental-sea-config`, `npx postject`,
`Add-AppxPackage`, and the launched child). -/
structure Env where
  platform : String
  version : String
  dirname : String
  cwd : String
  execPathContent : List Nat
  outDirExists : Bool
  compilerResult : Except String (List Nat)
  postjectResult : Except String (List Nat)
  registerResult : Except String Unit
  childExitCode : Option Int

/-- Result of one pipeline step: outcome, file system after the step, and
the effects the step performed. -/
structure StepOut (α : Type) where
  result : Except String α
  fs : FS
  evs : List Ev

/-- Windows path join, as `path.join` on win32. -/
def pathJoin (a b : String) : String := a ++ "\\" ++ b

/-- Model of `outDir` from `src/cli.js`: the fixed workspace directory under the
tool's own installation directory (`__dirname`). -/
def outDir (dirname : String) : String := pathJoin dirname "build-tmp-msix"

/-- Constant `scriptName` from `src/cli.js`. -/
def scriptName : String := "main.js"

/-- Constant `seaBlobName` from `src/cli.js`. -/
def seaBlobName : String := "sea-prep.blob"

/-- Constant `exeName` from `src/cli.js`. -/
def exeName : String := "msixnode.exe"

/-- Path of the staged script inside the workspace. -/
def stagedScriptPath (dirname : String) : String := pathJoin (outDir dirname) scriptName

/-- Path of the SEA build config inside the workspace. -/
def seaConfigPath (dirname : String) : String := pathJoin (outDir dirname) "sea-config.json"

/-- Path of the blob artifact inside the workspace. -/
def seaBlobPath (dirname : String) : String := pathJoin (outDir dirname) seaBlobName

/-- Path of the final executable inside the workspace. -/
def exePath (dirname : String) : String := pathJoin (outDir dirname) exeName

/-- Byte encoding of text written to disk (the artifacts' text is ASCII,
where code points and UTF-8 bytes coincide). -/
def encodeStr (s : String) : List Nat := s.data.map Char.toNat

/-- Escaping of backslashes and quotes as done by `JSON.stringify`. -/
def jsonEscape : List Char → List Char
  | [] => []
  | c :: cs =>
    if c = '\\' then '\\' :: '\\' :: jsonEscape cs
    else if c = '\"' then '\\' :: '\"' :: jsonEscape cs
    else c :: jsonEscape cs

/-- Serialization of a string as done by `JSON.stringify`. -/
def jsonQuote (s : String) : String := "\"" ++ String.mk (jsonEscape s.data) ++ "\""

/-- The bootstrap preamble injected ahead of the original script. -/
def preloadText (dirname : String) : String :=
  "\n__sea = true;\n__srcdirname = " ++ jsonQuote dirname ++ ";\n"

/-- Content of `sea-config.json` as written by `createTestSea`. -/
def seaConfigText : String :=
  "\x7b \"main\": \"main.js\", \"output\": \"sea-prep.blob\" \x7d"

/-- Is `c` an ASCII decimal digit (the regex class `\d`)? -/
def isDig (c : Char) : Bool := 48 ≤ c.toNat && c.toNat ≤ 57

/-- The version gate of `createTestSea`: the regex test
`/^v1\d\./.test(process.version)` — true exactly when the first four
characters are `v`, `1`, a digit, and a dot. -/
def nodeVersionUnsupported (v : String) : Bool :=
  match v.data with
  | c0 :: c1 :: c2 :: c3 :: _ => c0 == 'v' && c1 == '1' && isDig c2 && c3 == '.'
  | _ => false

/-! ### The pipeline steps of `src/cli.js` -/

/-- Model of `prepareScript`: ensure the workspace directory exists, read the
source script (`msix-node.js` next to the tool), and write the staged
script (preamble plus original content) into the workspace. -/
def prepareScript (env : Env) (fs : FS) : StepOut Unit :=
  let evs0 := if env.outDirExists then [] else [Ev.mkdirEv (outDir env.dirname)]
  match lookupFS fs (pathJoin env.dirname "msix-node.js") with
  | none =>
    { result := .error "ENOENT: no such file or directory, msix-node.js",
      fs := fs, evs := evs0 }
  | some script =>
    let staged := encodeStr (preloadText env.dirname) ++ script
    { result := .ok (),
      fs := insertFS fs (stagedScriptPath env.dirname) staged,
      evs := evs0 ++ [Ev.writeEv (stagedScriptPath env.dirname)] }

/-- Model of `createTestSea`: version gate, write the SEA config, take the previous
blob's checksum if the blob exists, run the external compiler, checksum
the fresh blob, and either skip (checksums equal, returns `false`) or
copy the host binary and run the external patcher (returns `true`). -/
def createTestSea (env : Env) (fs : FS) : StepOut Bool :=
  if nodeVersionUnsupported env.version then
    { result := .error "Node v20 required to create executable.", fs := fs, evs := [] }
  else
    let d := env.dirname
    let fs1 := insertFS fs (seaConfigPath d) (encodeStr seaConfigText)
    let prevBlobChecksum := (lookupFS fs1 (seaBlobPath d)).map readFileChecksum
    match env.compilerResult with
    | .error e =>
      { result := .error e, fs := fs1,
        evs := [Ev.writeEv (seaConfigPath d), Ev.execCompilerEv] }
    | .ok blob =>
      let fs2 := insertFS fs1 (seaBlobPath d) blob
      let evs2 := [Ev.writeEv (seaConfigPath d), Ev.execCompilerEv, Ev.writeEv (seaBlobPath d)]
      let blobChecksum := readFileChecksum blob
      if prevBlobChecksum = some blobChecksum then
        { result := .ok false, fs := fs2, evs := evs2 }
      else
        let fs3 := insertFS fs2 (exePath d) env.execPathContent
        match env.postjectResult with
        | .error e =>
          { result := .error e, fs := fs3,
            evs := evs2 ++ [Ev.copyEv (exePath d), Ev.execPostjectEv] }
        | .ok patched =>
          { result := .ok true, fs := insertFS fs3 (exePath d) patched,
            evs := evs2 ++ [Ev.copyEv (exePath d), Ev.execPostjectEv] }

/-- Model of `registerAppx`: run the platform registration command
(`Add-AppxPackage -Register AppxManifest.xml -ForceUpdateFromAnyVersion`). -/
def registerAppx (env : Env) (fs : FS) : StepOut Unit :=
  { result := env.registerResult, fs := fs, evs := [Ev.execRegisterEv] }

/-- Model of `runExe`: spawn the final executable, relay its streams, resolve on
exit code `0` and reject (carrying the observed code, `null` for a
signal) otherwise. -/
def runExe (env : Env) (fs : FS) : StepOut Unit :=
  let r : Except String Unit :=
    match env.childExitCode with
    | some c =>
      if c = 0 then .ok ()
      else .error ("msix-node exited with exitCode=" ++ toString c)
    | none => .error ("msix-node exited with exitCode=null")
  { result := r, fs := fs, evs := [Ev.spawnEv exeName] }

namespace Cli

/-- Model of `main`: the pipeline orchestrator — platform gate, staging, assemble,
conditional registration, launch.  Each step failure is fatal and
propagates unchanged. -/
def main (env : Env) (fs : FS) : StepOut Unit :=
  if env.platform ≠ "win32" then
    { result := .error "msix-node only supported on Windows.", fs := fs, evs := [] }
  else
    let s1 := prepareScript env fs
    match s1.result with
    | .error e => { result := .error e, fs := s1.fs, evs := s1.evs }
    | .ok _ =>
      let s2 := createTestSea env s1.fs
      match s2.result with
      | .error e => { result := .error e, fs := s2.fs, evs := s1.evs ++ s2.evs }
      | .ok updatedSea =>
        if updatedSea then
          let s3 := registerAppx env s2.fs
          match s3.result with
          | .error e =>
            { result := .error e, fs := s3.fs, evs := s1.evs ++ s2.evs ++ s3.evs }
          | .ok _ =>
            let s4 := runExe env s3.fs
            { result := s4.result, fs := s4.fs,
              evs := s1.evs ++ s2.evs ++ s3.evs ++ s4.evs }
        else
          let s4 := runExe env s2.fs
          { result := s4.result, fs := s4.fs, evs := s1.evs ++ s2.evs ++ s4.evs }

end Cli

/-! ### Auxiliary definitions used only to state claims -/

/-- Rendering of the child's exit code in the rejection message: the
number itself, or `null` when the child was terminated by a signal. -/
def exitCodeText : Option Int → String
  | some c => toString c
  | none => "null"

/-- The sixteen lowercase hexadecimal digit characters. -/
def lowerHexChars : List Char := "0123456789abcdef".data

/-- Numeric value of an ASCII digit character. -/
def digitVal (c : Char) : Nat := c.toNat - 48

/-- Split a character list into its leading run of ASCII digits and the
remainder. -/
def takeDigits : List Char → List Char × List Char
  | [] => ([], [])
  | c :: cs =>
    if isDig c then
      let p := takeDigits cs
      (c :: p.1, p.2)
    else ([], c :: cs)

/-- Decimal value of a digit-character list. -/
def digitsVal (ds : List Char) : Nat := ds.foldl (fun acc c => 10 * acc + digitVal c) 0

/-- The major version of a runtime version string `v<major>.<rest>`
(leading zeros rejected), used to state the version-gate claim. -/
def versionMajor (v : String) : Option Nat :=
  match v.data with
  | c :: cs =>
    if c = 'v' then
      match takeDigits cs with
      | (d :: ds, e :: _) =>
        if e = '.' then
          if d = '0' ∧ ds ≠ [] then none else some (digitsVal (d :: ds))
        else none
      | _ => none
    else none
  | [] => none

/-- A concrete environment for witnesses: Windows host, Node 20, all
external tools succeeding, child exiting cleanly. -/
def envBase : Env :=
  { platform := "win32", version := "v20.11.1", dirname := "C:\\app", cwd := "C:\\app",
    execPathContent := [77, 90], outDirExists := true,
    compilerResult := .ok [1, 2, 3], postjectResult := .ok [77, 90, 1, 2, 3],
    registerResult := .ok (), childExitCode := some 0 }

/-- A concrete file system holding only the tool's source script. -/
def fsDemo : FS := [(pathJoin "C:\\app" "msix-node.js", [10, 20])]

/-! ### Helper lemmas -/

theorem readFileChecksum_empty_vector :
    readFileChecksum [] = "d41d8cd98f00b204e9800998ecf8427e" := by decide

theorem readFileChecksum_abc_vector :
    readFileChecksum [97, 98, 99] = "900150983cd24fb0d6963f7d28e17f72" := by decide

theorem string_append_cancel_left {a x y : String} (h : a ++ x = a ++ y) : x = y := by
  apply String.ext
  have hd := congrArg String.data h
  simpa [String.data_append] using hd

theorem pathJoin_inj {d x y : String} (h : x ≠ y) : pathJoin d x ≠ pathJoin d y := by
  intro he
  exact h (string_append_cancel_left he)

theorem lookupFS_insert_self (fs : FS) (p : String) (c : List Nat) :
    lookupFS (insertFS fs p c) p = some c := by
  simp [insertFS, lookupFS]

theorem lookupFS_insert_ne (fs : FS) {p q : String} (c : List Nat) (h : p ≠ q) :
    lookupFS (insertFS fs p c) q = lookupFS fs q := by
  simp [insertFS, lookupFS, h]

theorem seaConfig_ne_seaBlob (d : String) : seaConfigPath d ≠ seaBlobPath d :=
  pathJoin_inj (by decide)

theorem seaConfig_ne_exe (d : String) : seaConfigPath d ≠ exePath d :=
  pathJoin_inj (by decide)

theorem seaBlob_ne_exe (d : String) : seaBlobPath d ≠ exePath d :=
  pathJoin_inj (by decide)

theorem prevLookup_through_config (env : Env) (fs : FS) :
    lookupFS (insertFS fs (seaConfigPath env.dirname) (encodeStr seaConfigText))
      (seaBlobPath env.dirname) = lookupFS fs (seaBlobPath env.dirname) :=
  lookupFS_insert_ne _ _ (seaConfig_ne_seaBlob _)

/-- C1: `createTestSea` returns `rebuilt = false` exactly when a previous
blob existed with the same digest as the fresh blob; in every other case
(no previous blob or differing digests) it embeds and returns `true`, and
on a first run (no prior blob) it always embeds. -/
theorem claim1_rebuild_decision (env : Env) (fs : FS) (blob patched : List Nat)
    (hv : nodeVersionUnsupported env.version = false)
    (hc : env.compilerResult = .ok blob)
    (hp : env.postjectResult = .ok patched) :
    ((createTestSea env fs).result = .ok false ↔
      (lookupFS fs (seaBlobPath env.dirname)).map readFileChecksum =
        some (readFileChecksum blob)) ∧
    ((lookupFS fs (seaBlobPath env.dirname)).map readFileChecksum ≠
        some (readFileChecksum blob) →
      (createTestSea env fs).result = .ok true ∧
      Ev.execPostjectEv ∈ (createTestSea env fs).evs) ∧
    (lookupFS fs (seaBlobPath env.dirname) = none →
      (createTestSea env fs).result = .ok true ∧
      Ev.execPostjectEv ∈ (createTestSea env fs).evs) := by
  have hcfg := prevLookup_through_config env fs
  by_cases hm : (lookupFS fs (seaBlobPath env.dirname)).map readFileChecksum =
      some (readFileChecksum blob)
  · constructor
    · simp [createTestSea, hv, hc, hcfg, hm]
    · constructor
      · intro h; exact absurd hm h
      · intro h; rw [h] at hm; simp at hm
  · constructor
    · simp [createTestSea, hv, hc, hp, hcfg, hm]
    · constructor
      · intro _; simp [createTestSea, hv, hc, hp, hcfg, hm]
      · intro _; simp [createTestSea, hv, hc, hp, hcfg, hm]

theorem claim1_witness :
    (createTestSea envBase []).result = .ok true ∧
    Ev.execPostjectEv ∈ (createTestSea envBase []).evs :=
  (claim1_rebuild_decision envBase [] [1, 2, 3] [77, 90, 1, 2, 3]
    (by decide) rfl rfl).2.2 rfl

/-- C2: when the stored blob and the freshly rebuilt blob have equal
digests, `createTestSea` returns `rebuilt = false`, the final executable
on disk is untouched, and neither the host-binary copy nor the patcher
invocation happens. -/
theorem claim2_skip_frame (env : Env) (fs : FS) (blob prev : List Nat)
    (hv : nodeVersionUnsupported env.version = false)
    (hc : env.compilerResult = .ok blob)
    (hprev : lookupFS fs (seaBlobPath env.dirname) = some prev)
    (heq : readFileChecksum prev = readFileChecksum blob) :
    (createTestSea env fs).result = .ok false ∧
    lookupFS (createTestSea env fs).fs (exePath env.dirname) =
      lookupFS fs (exePath env.dirname) ∧
    (∀ p, Ev.copyEv p ∉ (createTestSea env fs).evs) ∧
    Ev.execPostjectEv ∉ (createTestSea env fs).evs := by
  have hcfg := prevLookup_through_config env fs
  have hm : (lookupFS fs (seaBlobPath env.dirname)).map readFileChecksum =
      some (readFileChecksum blob) := by rw [hprev]; simpa using heq
  refine ⟨by simp [createTestSea, hv, hc, hcfg, hm], ?_, ?_, ?_⟩
  · simp only [createTestSea, hv, hc]
    simp [hcfg, hm, lookupFS_insert_ne _ _ (seaBlob_ne_exe env.dirname),
      lookupFS_insert_ne _ _ (seaConfig_ne_exe env.dirname)]
  · intro p; simp [createTestSea, hv, hc, hcfg, hm]
  · simp [createTestSea, hv, hc, hcfg, hm]

theorem claim2_witness :
    (createTestSea envBase [(seaBlobPath "C:\\app", [1, 2, 3])]).result = .ok false ∧
    lookupFS (createTestSea envBase [(seaBlobPath "C:\\app", [1, 2, 3])]).fs
      (exePath "C:\\app") =
      lookupFS [(seaBlobPath "C:\\app", [1, 2, 3])] (exePath "C:\\app") ∧
    (∀ p, Ev.copyEv p ∉ (createTestSea envBase [(seaBlobPath "C:\\app", [1, 2, 3])]).evs) ∧
    Ev.execPostjectEv ∉ (createTestSea envBase [(seaBlobPath "C:\\app", [1, 2, 3])]).evs :=
  claim2_skip_frame envBase [(seaBlobPath "C:\\app", [1, 2, 3])] [1, 2, 3] [1, 2, 3]
    (by decide) rfl rfl rfl

/-- C7: if the external compiler fails, `createTestSea` aborts before any
embedding attempt — no host-binary copy, no patcher invocation, and the
final executable on disk is untouched. -/
theorem claim7_compiler_failure (env : Env) (fs : FS) (e : String)
    (hv : nodeVersionUnsupported env.version = false)
    (hc : env.compilerResult = .error e) :
    (createTestSea env fs).result = .error e ∧
    (∀ p, Ev.copyEv p ∉ (createTestSea env fs).evs) ∧
    Ev.execPostjectEv ∉ (createTestSea env fs).evs ∧
    lookupFS (createTestSea env fs).fs (exePath env.dirname) =
      lookupFS fs (exePath env.dirname) := by
  refine ⟨by simp [createTestSea, hv, hc], fun p => by simp [createTestSea, hv, hc],
    by simp [createTestSea, hv, hc], ?_⟩
  simp only [createTestSea, hv, hc]
  simp [lookupFS_insert_ne _ _ (seaConfig_ne_exe env.dirname)]

theorem claim7_witness :
    (createTestSea { envBase with compilerResult := .error "sea build failed" } []).result =
      .error "sea build failed" ∧
    (∀ p, Ev.copyEv p ∉
      (createTestSea { envBase with compilerResult := .error "sea build failed" } []).evs) ∧
    Ev.execPostjectEv ∉
      (createTestSea { envBase with compilerResult := .error "sea build failed" } []).evs ∧
    lookupFS (createTestSea { envBase with compilerResult := .error "sea build failed" } []).fs
      (exePath "C:\\app") = lookupFS [] (exePath "C:\\app") :=
  claim7_compiler_failure _ [] "sea build failed" (by decide) rfl

/-! ### Event-shape lemmas for the orchestrator claims -/

theorem prepareScript_evs_mem (env : Env) (fs : FS) :
    ∀ ev ∈ (prepareScript env fs).evs,
      ev = Ev.mkdirEv (outDir env.dirname) ∨
      ev = Ev.writeEv (stagedScriptPath env.dirname) := by
  intro ev hev
  simp only [prepareScript] at hev
  repeat' split at hev
  all_goals simp at hev
  all_goals tauto

theorem createTestSea_evs_mem (env : Env) (fs : FS) :
    ∀ ev ∈ (createTestSea env fs).evs,
      ev = Ev.writeEv (seaConfigPath env.dirname) ∨
      ev = Ev.execCompilerEv ∨
      ev = Ev.writeEv (seaBlobPath env.dirname) ∨
      ev = Ev.copyEv (exePath env.dirname) ∨
      ev = Ev.execPostjectEv := by
  intro ev hev
  simp only [createTestSea] at hev
  repeat' split at hev
  all_goals simp at hev
  all_goals tauto

theorem prepareScript_no_register (env : Env) (fs : FS) :
    Ev.execRegisterEv ∉ (prepareScript env fs).evs := by
  intro h
  rcases prepareScript_evs_mem env fs _ h with h' | h' <;> simp at h'

theorem prepareScript_no_spawn (env : Env) (fs : FS) (c : String) :
    Ev.spawnEv c ∉ (prepareScript env fs).evs := by
  intro h
  rcases prepareScript_evs_mem env fs _ h with h' | h' <;> simp at h'

theorem createTestSea_no_register (env : Env) (fs : FS) :
    Ev.execRegisterEv ∉ (createTestSea env fs).evs := by
  intro h
  rcases createTestSea_evs_mem env fs _ h with h' | h' | h' | h' | h' <;> simp at h'

theorem createTestSea_no_spawn (env : Env) (fs : FS) (c : String) :
    Ev.spawnEv c ∉ (createTestSea env fs).evs := by
  intro h
  rcases createTestSea_evs_mem env fs _ h with h' | h' | h' | h' | h' <;> simp at h'

theorem main_evs_of_ok (env : Env) (fs : FS) (b : Bool)
    (hplat : env.platform = "win32")
    (hprep : (prepareScript env fs).result = .ok ())
    (hsea : (createTestSea env (prepareScript env fs).fs).result = .ok b) :
    (Cli.main env fs).evs =
      (prepareScript env fs).evs ++ (createTestSea env (prepareScript env fs).fs).evs ++
        (if b then
          Ev.execRegisterEv ::
            (match env.registerResult with
             | .ok _ => [Ev.spawnEv exeName]
             | .error _ => [])
         else [Ev.spawnEv exeName]) := by
  simp only [Cli.main]
  rw [if_neg (by simp [hplat]), hprep, hsea]
  cases b with
  | true => cases hr : env.registerResult <;> simp [registerAppx, runExe, hr]
  | false => simp [runExe]

/-- C5: the registrar is invoked iff `createTestSea` reported a rebuild;
on the skip path no registrar invocation occurs and the pipeline still
reaches the launcher. -/
theorem claim5_conditional_registration (env : Env) (fs : FS) (b : Bool)
    (hplat : env.platform = "win32")
    (hprep : (prepareScript env fs).result = .ok ())
    (hsea : (createTestSea env (prepareScript env fs).fs).result = .ok b) :
    (Ev.execRegisterEv ∈ (Cli.main env fs).evs ↔ b = true) ∧
    (b = false → Ev.spawnEv exeName ∈ (Cli.main env fs).evs) := by
  rw [main_evs_of_ok env fs b hplat hprep hsea]
  cases b with
  | true => simp
  | false =>
    simp [List.mem_append, prepareScript_no_register, createTestSea_no_register]

theorem claim5_witness :
    (Ev.execRegisterEv ∈ (Cli.main envBase fsDemo).evs ↔ true = true) ∧
    (true = false → Ev.spawnEv exeName ∈ (Cli.main envBase fsDemo).evs) :=
  claim5_conditional_registration envBase fsDemo true rfl rfl rfl

/-- C6: if the assemble step fails, the error propagates to the top level
and neither the registrar nor the launcher is ever invoked. -/
theorem claim6_fail_fast (env : Env) (fs : FS) (e : String)
    (hplat : env.platform = "win32")
    (hprep : (prepareScript env fs).result = .ok ())
    (hsea : (createTestSea env (prepareScript env fs).fs).result = .error e) :
    (Cli.main env fs).result = .error e ∧
    Ev.execRegisterEv ∉ (Cli.main env fs).evs ∧
    (∀ c, Ev.spawnEv c ∉ (Cli.main env fs).evs) := by
  have hmain : Cli.main env fs =
      { result := .error e, fs := (createTestSea env (prepareScript env fs).fs).fs,
        evs := (prepareScript env fs).evs ++
          (createTestSea env (prepareScript env fs).fs).evs } := by
    simp only [Cli.main]
    rw [if_neg (by simp [hplat]), hprep, hsea]
  rw [hmain]
  refine ⟨rfl, ?_, ?_⟩
  · simp [List.mem_append, prepareScript_no_register, createTestSea_no_register]
  · intro c
    simp [List.mem_append, prepareScript_no_spawn, createTestSea_no_spawn]

theorem claim6_witness :
    (Cli.main { envBase with compilerResult := .error "sea build failed" } fsDemo).result =
      .error "sea build failed" ∧
    Ev.execRegisterEv ∉
      (Cli.main { envBase with compilerResult := .error "sea build failed" } fsDemo).evs ∧
    (∀ c, Ev.spawnEv c ∉
      (Cli.main { envBase with compilerResult := .error "sea build failed" } fsDemo).evs) :=
  claim6_fail_fast _ fsDemo "sea build failed" rfl rfl rfl

/-- C3 as stated is false: with a supported OS but an unsupported Node
version, the staged script has already been written to the workspace when
the version error is raised — a filesystem side effect precedes the
environment-precondition failure. -/
theorem claim3_counterexample :
    (Cli.main { envBase with version := "v18.17.0" } fsDemo).result =
      .error "Node v20 required to create executable." ∧
    Ev.writeEv (stagedScriptPath "C:\\app") ∈
      (Cli.main { envBase with version := "v18.17.0" } fsDemo).evs := by
  exact ⟨rfl, by decide⟩

/-- C3 amended: the OS precondition is checked before any side effect (a
non-Windows platform fails with no effects at all), but the
runtime-version precondition is only checked at the start of the assemble
step — after the workspace creation and the staged-script write, though
still before the config write, the compiler invocation, and any
embedding. -/
theorem claim3_amended (env : Env) (fs : FS) (script : List Nat) :
    (env.platform ≠ "win32" →
      (Cli.main env fs).result = .error "msix-node only supported on Windows." ∧
      (Cli.main env fs).evs = []) ∧
    (env.platform = "win32" →
      lookupFS fs (pathJoin env.dirname "msix-node.js") = some script →
      nodeVersionUnsupported env.version = true →
      (Cli.main env fs).result = .error "Node v20 required to create executable." ∧
      Ev.writeEv (stagedScriptPath env.dirname) ∈ (Cli.main env fs).evs ∧
      Ev.writeEv (seaConfigPath env.dirname) ∉ (Cli.main env fs).evs ∧
      Ev.execCompilerEv ∉ (Cli.main env fs).evs ∧
      (∀ p, Ev.copyEv p ∉ (Cli.main env fs).evs) ∧
      Ev.execPostjectEv ∉ (Cli.main env fs).evs) := by
  constructor
  · intro hplat
    unfold Cli.main
    simp [hplat]
  · intro hplat hsrc hv
    have hstage : stagedScriptPath env.dirname ≠ seaConfigPath env.dirname :=
      pathJoin_inj (by decide)
    have hstage2 : seaConfigPath env.dirname ≠ stagedScriptPath env.dirname :=
      Ne.symm hstage
    unfold Cli.main prepareScript createTestSea
    simp only [hplat, hsrc, hv]
    constructor
    · simp
    · split <;> simp_all

theorem claim3_amended_witness :
    (Cli.main { envBase with version := "v18.17.0" } fsDemo).result =
      .error "Node v20 required to create executable." ∧
    Ev.writeEv (stagedScriptPath "C:\\app") ∈
      (Cli.main { envBase with version := "v18.17.0" } fsDemo).evs ∧
    Ev.writeEv (seaConfigPath "C:\\app") ∉
      (Cli.main { envBase with version := "v18.17.0" } fsDemo).evs ∧
    Ev.execCompilerEv ∉ (Cli.main { envBase with version := "v18.17.0" } fsDemo).evs ∧
    (∀ p, Ev.copyEv p ∉ (Cli.main { envBase with version := "v18.17.0" } fsDemo).evs) ∧
    Ev.execPostjectEv ∉ (Cli.main { envBase with version := "v18.17.0" } fsDemo).evs :=
  (claim3_amended { envBase with version := "v18.17.0" } fsDemo [10, 20]).2
    rfl rfl (by decide)

/-- C8: the launcher resolves exactly when the child exits with code `0`;
any other exit (a non-zero code, or `null` after a signal) rejects with a
message carrying the observed code. -/
theorem claim8_exit_code (env : Env) (fs : FS) :
    ((runExe env fs).result = .ok () ↔ env.childExitCode = some 0) ∧
    (env.childExitCode ≠ some 0 →
      (runExe env fs).result =
        .error ("msix-node exited with exitCode=" ++ exitCodeText env.childExitCode)) := by
  cases hx : env.childExitCode with
  | none => simp [runExe, hx, exitCodeText]
  | some c =>
    by_cases hc : c = 0
    · subst hc; simp [runExe, hx]
    · simp [runExe, hx, hc, exitCodeText]

theorem claim8_witness :
    (runExe { envBase with childExitCode := some 3 } []).result =
      .error "msix-node exited with exitCode=3" :=
  (claim8_exit_code { envBase with childExitCode := some 3 } []).2 (by decide)

/-! ### Checksum shape lemmas (for C9) -/

theorem leBytes_length (n x : Nat) : (leBytes n x).length = n := by
  induction n generalizing x with
  | zero => rfl
  | succ k ih => simp [leBytes, ih]

theorem md5final_length (st : Nat × Nat × Nat × Nat) : (md5final st).length = 16 := by
  simp [md5final, leBytes_length]

theorem md5bytes_length (msg : List Nat) : (md5bytes msg).length = 16 := by
  simp [md5bytes, md5final_length]

theorem hexDigitChar_mem (n : Nat) : hexDigitChar n ∈ lowerHexChars := by
  unfold hexDigitChar
  split <;> decide

theorem hexChars_mem (bs : List Nat) : ∀ c ∈ hexChars bs, c ∈ lowerHexChars := by
  induction bs with
  | nil => simp [hexChars]
  | cons b t ih =>
    intro c hc
    simp only [hexChars, byteHex, List.cons_append, List.nil_append, List.mem_cons] at hc
    rcases hc with rfl | rfl | hc
    · exact hexDigitChar_mem _
    · exact hexDigitChar_mem _
    · exact ih c hc

theorem hexChars_length (bs : List Nat) : (hexChars bs).length = 2 * bs.length := by
  induction bs with
  | nil => rfl
  | cons b t ih =>
    simp [hexChars, byteHex, ih]
    omega

/-- C9: the checksum is a pure function of the file's bytes — recomputing
on unchanged content or on byte-identical files yields the same digest,
which is a 32-character lowercase hexadecimal string. -/
theorem claim9_checksum_deterministic (b1 b2 : List Nat) (h : b1 = b2) :
    readFileChecksum b1 = readFileChecksum b2 ∧
    (readFileChecksum b1).data.length = 32 ∧
    ∀ c ∈ (readFileChecksum b1).data, c ∈ lowerHexChars := by
  subst h
  refine ⟨rfl, ?_, ?_⟩
  · show (hexChars (md5bytes b1)).length = 32
    rw [hexChars_length, md5bytes_length]
  · show ∀ c ∈ hexChars (md5bytes b1), c ∈ lowerHexChars
    exact hexChars_mem _

theorem claim9_witness :
    readFileChecksum [1, 2, 3] = readFileChecksum [1, 2, 3] ∧
    (readFileChecksum [1, 2, 3]).data.length = 32 ∧
    ∀ c ∈ (readFileChecksum [1, 2, 3]).data, c ∈ lowerHexChars :=
  claim9_checksum_deterministic [1, 2, 3] [1, 2, 3] rfl

/-! ### Workspace confinement (C10) -/

theorem pathJoin_eq_append (a b : String) : pathJoin a b = a ++ ("\\" ++ b) := by
  apply String.ext
  simp [pathJoin, String.data_append]

theorem main_evs_mem (env : Env) (fs : FS) :
    ∀ ev ∈ (Cli.main env fs).evs,
      ev = Ev.mkdirEv (outDir env.dirname) ∨
      ev = Ev.writeEv (stagedScriptPath env.dirname) ∨
      ev = Ev.writeEv (seaConfigPath env.dirname) ∨
      ev = Ev.execCompilerEv ∨
      ev = Ev.writeEv (seaBlobPath env.dirname) ∨
      ev = Ev.copyEv (exePath env.dirname) ∨
      ev = Ev.execPostjectEv ∨
      ev = Ev.execRegisterEv ∨
      ev = Ev.spawnEv exeName := by
  intro ev hev
  have h1 := prepareScript_evs_mem env fs ev
  have h2 := createTestSea_evs_mem env (prepareScript env fs).fs ev
  by_cases hplat : env.platform = "win32"
  case neg =>
    have hevs : (Cli.main env fs).evs = [] := by
      simp only [Cli.main]
      rw [if_pos hplat]
    rw [hevs] at hev
    simp at hev
  case pos =>
    cases hp : (prepareScript env fs).result with
    | error e =>
      have hevs : (Cli.main env fs).evs = (prepareScript env fs).evs := by
        simp only [Cli.main]
        rw [if_neg (by simp [hplat]), hp]
      rw [hevs] at hev
      tauto
    | ok u =>
      cases u
      cases hs : (createTestSea env (prepareScript env fs).fs).result with
      | error e =>
        have hevs : (Cli.main env fs).evs =
            (prepareScript env fs).evs ++
              (createTestSea env (prepareScript env fs).fs).evs := by
          simp only [Cli.main]
          rw [if_neg (by simp [hplat]), hp, hs]
        rw [hevs] at hev
        rcases List.mem_append.mp hev with h | h <;> tauto
      | ok b =>
        rw [main_evs_of_ok env fs b hplat hp hs] at hev
        rcases List.mem_append.mp hev with h | h
        · rcases List.mem_append.mp h with h | h <;> tauto
        · cases b with
          | false => simp at h; tauto
          | true =>
            rw [if_pos rfl] at h
            rcases List.mem_cons.mp h with h | h
            · tauto
            · cases hr : env.registerResult with
              | ok u => rw [hr] at h; simp at h; tauto
              | error e => rw [hr] at h; simp at h

/-- C10: every artifact the pipeline writes lands inside the one fixed
workspace directory under the tool's installation directory, and the
effect trace does not depend on the process's current working
directory. -/
theorem claim10_workspace_confinement (env : Env) (fs : FS) :
    (∀ p, Ev.writeEv p ∈ (Cli.main env fs).evs ∨ Ev.copyEv p ∈ (Cli.main env fs).evs →
      ∃ rest, p = outDir env.dirname ++ rest) ∧
    outDir env.dirname = env.dirname ++ "\\build-tmp-msix" ∧
    (∀ c, (Cli.main { env with cwd := c } fs).evs = (Cli.main env fs).evs) := by
  refine ⟨?_, ?_, ?_⟩
  · intro p hp
    have hcases : p = stagedScriptPath env.dirname ∨ p = seaConfigPath env.dirname ∨
        p = seaBlobPath env.dirname ∨ p = exePath env.dirname := by
      rcases hp with h | h
      · rcases main_evs_mem env fs _ h with h'|h'|h'|h'|h'|h'|h'|h'|h' <;> simp_all
      · rcases main_evs_mem env fs _ h with h'|h'|h'|h'|h'|h'|h'|h'|h' <;> simp_all
    rcases hcases with h | h | h | h
    · exact ⟨"\\" ++ scriptName, by rw [h]; exact pathJoin_eq_append _ _⟩
    · exact ⟨"\\" ++ "sea-config.json", by rw [h]; exact pathJoin_eq_append _ _⟩
    · exact ⟨"\\" ++ seaBlobName, by rw [h]; exact pathJoin_eq_append _ _⟩
    · exact ⟨"\\" ++ exeName, by rw [h]; exact pathJoin_eq_append _ _⟩
  · rw [show ("\\build-tmp-msix" : String) = "\\" ++ "build-tmp-msix" from by decide]
    exact pathJoin_eq_append _ _
  · intro c
    cases env
    rfl

theorem claim10_witness :
    ∃ rest, stagedScriptPath "C:\\app" = outDir "C:\\app" ++ rest :=
  (claim10_workspace_confinement envBase fsDemo).1 (stagedScriptPath "C:\\app")
    (Or.inl (by decide))

/-! ### The version gate (C4) -/

theorem isDig_bounds {c : Char} (h : isDig c = true) : 48 ≤ c.toNat ∧ c.toNat ≤ 57 := by
  simpa [isDig, Bool.and_eq_true, decide_eq_true_eq] using h

theorem char_eq_of_toNat {c d : Char} (h : c.toNat = d.toNat) : c = d := by
  have hc := Char.ofNat_toNat c
  have hd := Char.ofNat_toNat d
  rw [← hc, ← hd, h]

theorem takeDigits_spec (cs : List Char) :
    cs = (takeDigits cs).1 ++ (takeDigits cs).2 ∧
    ∀ c ∈ (takeDigits cs).1, isDig c = true := by
  induction cs with
  | nil => simp [takeDigits]
  | cons c t ih =>
    by_cases h : isDig c
    · simp only [takeDigits, h, if_true]
      refine ⟨?_, ?_⟩
      · simpa using ih.1
      · intro x hx
        rcases List.mem_cons.mp hx with rfl | hx
        · exact h
        · exact ih.2 x hx
    · simp [takeDigits, h]

theorem digits_foldl_ge (t : List Char) (a : Nat) :
    a * 10 ^ t.length ≤ t.foldl (fun acc c => 10 * acc + digitVal c) a := by
  induction t generalizing a with
  | nil => simp
  | cons c ts ih =>
    calc a * 10 ^ (c :: ts).length = (10 * a) * 10 ^ ts.length := by
          simp [List.length_cons, pow_succ]; ring
      _ ≤ (10 * a + digitVal c) * 10 ^ ts.length :=
          Nat.mul_le_mul_right _ (by omega)
      _ ≤ (c :: ts).foldl (fun acc x => 10 * acc + digitVal x) a := by
          simpa [List.foldl] using ih (10 * a + digitVal c)

theorem digitsVal_cons_ge (d : Char) (ds : List Char) :
    digitVal d * 10 ^ ds.length ≤ digitsVal (d :: ds) := by
  simpa [digitsVal, List.foldl] using digits_foldl_ge ds (digitVal d)

/-- C4 as stated is false: `v9.3.0` has major version 9, below the
required minimum of 20, yet the gate does not raise — `createTestSea`
proceeds and rebuilds.  The regex `/^v1\d\./` only matches the two-digit
majors 10 through 19. -/
theorem claim4_counterexample :
    versionMajor "v9.3.0" = some 9 ∧ (9 : Nat) < 20 ∧
    nodeVersionUnsupported "v9.3.0" = false ∧
    (createTestSea { envBase with version := "v9.3.0" } []).result = .ok true := by
  exact ⟨by decide, by decide, by decide, rfl⟩

/-- C4 amended: the version gate raises exactly for the versions whose
major version is between 10 and 19; every version at or above the
required Node 20 passes the gate, but versions with a single-digit major
(below 10) pass as well, so the gate is not a true minimum-major check. -/
theorem claim4_amended (v : String) (m : Nat) (h : versionMajor v = some m) :
    nodeVersionUnsupported v = true ↔ (10 ≤ m ∧ m ≤ 19) := by
  unfold versionMajor at h
  rcases hd : v.data with _ | ⟨c, cs⟩
  · rw [hd] at h; simp at h
  rw [hd] at h
  by_cases hc : c = 'v'
  swap
  · simp [hc] at h
  subst hc
  simp only [if_pos rfl] at h
  rcases htd : takeDigits cs with ⟨ds0, rest⟩
  rw [htd] at h
  have hspec := takeDigits_spec cs
  rw [htd] at hspec
  rcases ds0 with _ | ⟨d, ds⟩
  · simp at h
  rcases rest with _ | ⟨e, r⟩
  · simp at h
  simp only [] at h
  by_cases he : e = '.'
  swap
  · simp [he] at h
  subst he
  rw [if_pos rfl] at h
  by_cases hz : d = '0' ∧ ds ≠ []
  · rw [if_pos hz] at h; simp at h
  rw [if_neg hz] at h
  have hm : digitsVal (d :: ds) = m := by simpa using h
  have hdata : v.data = 'v' :: d :: (ds ++ '.' :: r) := by
    rw [hd]
    have h1 := hspec.1
    simp at h1
    rw [h1]
  have hdig : ∀ x ∈ d :: ds, isDig x = true := by
    intro x hx
    exact hspec.2 x (by simpa using hx)
  have hdd := isDig_bounds (hdig d (by simp))
  rcases ds with _ | ⟨d2, ds2⟩
  · -- single-digit major: the gate never fires and m ≤ 9
    have hgate : nodeVersionUnsupported v = false := by
      unfold nodeVersionUnsupported
      rw [hdata]
      rcases r with _ | ⟨r0, r'⟩
      · simp
      · simp [isDig]
    have hm9 : m ≤ 9 := by
      rw [← hm]
      simp [digitsVal, digitVal, List.foldl]
      omega
    rw [hgate]
    simp
    omega
  rcases ds2 with _ | ⟨d3, ds3⟩
  · -- two-digit major: the gate fires exactly when the first digit is 1
    have hd2 := isDig_bounds (hdig d2 (by simp))
    have hd0 : d ≠ '0' := fun h0 => hz ⟨h0, by simp⟩
    have hd48 : d.toNat ≠ 48 := fun h48 => hd0 (char_eq_of_toNat (by simpa using h48))
    have hgate : nodeVersionUnsupported v = (d == '1') := by
      unfold nodeVersionUnsupported
      rw [hdata]
      simp [hdig d2 (by simp)]
    have hmv : m = 10 * digitVal d + digitVal d2 := by
      rw [← hm]
      simp [digitsVal, List.foldl]
    rw [hgate]
    constructor
    · intro h1
      have : d = '1' := by simpa using h1
      subst this
      have : digitVal '1' = 1 := by decide
      rw [this] at hmv
      simp [digitVal] at hmv hd2 ⊢
      omega
    · rintro ⟨h10, h19⟩
      have hv1 : digitVal d = 1 := by
        simp [digitVal] at hmv hd2 ⊢
        omega
      have : d.toNat = 49 := by
        simp [digitVal] at hv1
        omega
      have : d = '1' := char_eq_of_toNat (by simpa using this)
      simp [this]
  · -- three or more digits: the gate never fires and m ≥ 100
    have hd3 := isDig_bounds (hdig d3 (by simp))
    have hne3 : d3 ≠ '.' := by
      intro hcon
      rw [hcon] at hd3
      simp at hd3
    have hgate : nodeVersionUnsupported v = false := by
      unfold nodeVersionUnsupported
      rw [hdata]
      simp [hne3]
    have hd0 : d ≠ '0' := fun h0 => hz ⟨h0, by simp⟩
    have hd48 : d.toNat ≠ 48 := fun h48 => hd0 (char_eq_of_toNat (by simpa using h48))
    have hvd : 1 ≤ digitVal d := by
      simp [digitVal]
      omega
    have hpow : 100 ≤ 10 ^ (d2 :: d3 :: ds3).length := by
      have h2 : (2 : Nat) ≤ (d2 :: d3 :: ds3).length := by simp
      calc (100 : Nat) = 10 ^ 2 := by norm_num
        _ ≤ 10 ^ (d2 :: d3 :: ds3).length := Nat.pow_le_pow_right (by norm_num) h2
    have hge : 100 ≤ m := by
      rw [← hm]
      calc (100 : Nat) ≤ 1 * 10 ^ (d2 :: d3 :: ds3).length := by omega
        _ ≤ digitVal d * 10 ^ (d2 :: d3 :: ds3).length :=
            Nat.mul_le_mul_right _ hvd
        _ ≤ digitsVal (d :: d2 :: d3 :: ds3) := digitsVal_cons_ge d (d2 :: d3 :: ds3)
    rw [hgate]
    simp
    omega

theorem claim4_amended_witness :
    nodeVersionUnsupported "v18.1.0" = true :=
  (claim4_amended "v18.1.0" 18 (by decide)).mpr (by decide)
